import Mathlib

/-!
Shallow embedding of the reactive tracking core of `preact-signals-utils`
(`src/packages/react/src/lib/tracking.ts`).

The source is a JavaScript module.  Each `createEffectStore()` call builds a
closure holding per-store mutable variables (`version`, `onChangeNotifyReact`,
`inRender`, `syncRerendersCount`); the module additionally owns process-wide
mutable variables shared by all stores (`useSignalsDepth`, `cleanUpFn`,
`resetSyncRerendersSet`, `isResetSyncRerendersScheduled`).

The embedding models a store's closure variables by `StoreState` and the
module-level variables by the extra fields of `System`.  JavaScript exceptions
do not roll back earlier assignments, so every operation returns the state as
mutated up to the point of the throw together with an outcome value that is
either `ok` or `error msg` (a thrown `Error` with its message).  The
underlying preact effect is modelled by a ledger: `startRecording` invocations
(`effectInstance._start()`) hand out fresh handle identifiers recorded in
`startRecordingLog`, and invoking a cleanup handle records its identifier in
`cleanupLog`.  The microtask queue is modelled by `queuedMicrotasks`, a count
of deferred `resetSyncRerenders` callbacks queued so far.
-/

namespace SignalsTracking

/-- JavaScript `| 0` (ToInt32): reduce an integer to the signed 32-bit range
`[-2^31, 2^31)`, congruent to the input modulo `2^32`. -/
def toInt32 (n : Int) : Int :=
  let m := n % 4294967296
  if m < 2147483648 then m else m - 4294967296

/-- The per-store closure variables of `createEffectStore` in
`src/packages/react/src/lib/tracking.ts`: `version`, presence of
`onChangeNotifyReact`, `inRender`, `syncRerendersCount`, and whether the
store's underlying effect has been disposed (the captured `unsubscribe`). -/
structure StoreState where
  version : Int
  hasNotify : Bool
  inRender : Bool
  syncRerendersCount : Nat
  effectDisposed : Bool
  deriving DecidableEq, Repr

/-- Initial closure state of a freshly created effect store. -/
def initStore : StoreState :=
  { version := 0, hasNotify := false, inRender := false,
    syncRerendersCount := 0, effectDisposed := false }

/-- The module-level constant `maxSyncRerenders = 25`. -/
def maxSyncRerenders : Nat := 25

/-- Outcome of one `onDepsChange` (`effectInstance[EffectFields.onDepsChange]`)
delivery: ignored because `inRender` was set; threw the
too-many-sync-rerenders error; bumped the version with no callback present;
invoked the callback and it returned; or invoked the callback and it threw. -/
inductive DepsChangeResult where
  | ignoredInRender
  | tooManyRerenders (msg : String)
  | bumpedNoCallback
  | notified
  | notifyRaised
  deriving DecidableEq, Repr

/-- The diagnostic message thrown by `onDepsChange` when the sync-rerender
ceiling is exceeded, as built in the source. -/
def tooManyMsg (count : Nat) : String :=
  "preact-signals: Too many sync rerenders (" ++ toString count ++
    "), you might change parent component signal dependencies in render of child component."

/-- The store's dependency-change handler (`effectInstance[EffectFields.onDepsChange]`
in `createEffectStore`).  `cbRaises` models whether the host's
`onChangeNotifyReact` callback itself throws when invoked. -/
def onDepsChange (cbRaises : Bool) (s : StoreState) : StoreState × DepsChangeResult :=
  if s.inRender then (s, .ignoredInRender)
  else if s.syncRerendersCount > maxSyncRerenders then
    (s, .tooManyRerenders (tooManyMsg s.syncRerendersCount))
  else
    let s1 := { s with version := toInt32 (s.version + 1) }
    if !s1.hasNotify then (s1, .bumpedNoCallback)
    else if cbRaises then (s1, .notifyRaised)
    else (s1, .notified)

/-- `subscribe(onStoreChange)`: store the callback as `onChangeNotifyReact`. -/
def subscribe (s : StoreState) : StoreState :=
  { s with hasNotify := true }

/-- The unsubscribe closure returned by `subscribe`: rotates `version` with
`(version + 1) | 0`, clears `onChangeNotifyReact`, and calls the captured
`unsubscribe` that disposes the underlying effect. -/
def unsubscribe (s : StoreState) : StoreState :=
  { s with version := toInt32 (s.version + 1), hasNotify := false,
           effectDisposed := true }

/-- `getSnapshot()`: returns the current `version`. -/
def getSnapshot (s : StoreState) : Int :=
  s.version

/-- The store's `resetSyncRerenders` method (`EffectStoreFields.resetSyncRerenders`):
sets `syncRerendersCount = 0`. -/
def resetSyncRerenders (s : StoreState) : StoreState :=
  { s with syncRerendersCount := 0 }

/-- Deliver `n` tracked-value mutations to `onDepsChange` (callback not
raising), returning the final store state and how many deliveries invoked the
notify callback. -/
def deliverMutations : Nat → StoreState → StoreState × Nat
  | 0, s => (s, 0)
  | n + 1, s =>
    let step := onDepsChange false s
    let rest := deliverMutations n step.1
    (rest.1, (if step.2 = DepsChangeResult.notified then 1 else 0) + rest.2)

/-- Whole-module state: all store closures (indexed by an arbitrary store
identifier) together with the module-level shared variables of `tracking.ts`
and the effect/microtask ledgers described in the file header. -/
structure System where
  stores : Nat → StoreState
  useSignalsDepth : Nat
  cleanUpFn : Option Nat
  nextHandleId : Nat
  startRecordingLog : List Nat
  cleanupLog : List Nat
  isResetSyncRerendersScheduled : Bool
  resetSyncRerendersSet : List Nat
  queuedMicrotasks : Nat

/-- Module state at load time: no store has been used, depth `0`, no pending
cleanup handle, empty registry, no reset scheduled. -/
def initSystem : System :=
  { stores := fun _ => initStore, useSignalsDepth := 0, cleanUpFn := none,
    nextHandleId := 0, startRecordingLog := [], cleanupLog := [],
    isResetSyncRerendersScheduled := false, resetSyncRerendersSet := [],
    queuedMicrotasks := 0 }

/-- Replace the closure state of store `i`. -/
def setStore (sys : System) (i : Nat) (s : StoreState) : System :=
  { sys with stores := fun j => if j = i then s else sys.stores j }

/-- `scheduleResetSyncRerenders(store)`: if no reset is scheduled, set the
flag and queue one `resetSyncRerenders` microtask; then add the store to
`resetSyncRerendersSet` if absent. -/
def scheduleResetSyncRerenders (sys : System) (i : Nat) : System :=
  let sys1 :=
    if sys.isResetSyncRerendersScheduled then sys
    else { sys with isResetSyncRerendersScheduled := true,
                    queuedMicrotasks := sys.queuedMicrotasks + 1 }
  if i ∈ sys1.resetSyncRerendersSet then sys1
  else { sys1 with resetSyncRerendersSet := sys1.resetSyncRerendersSet ++ [i] }

/-- The queued `resetSyncRerenders` module callback: clears the scheduled
flag, calls `resetSyncRerenders` on every registered store, and clears the
registry. -/
def runResetSyncRerenders (sys : System) : System :=
  { sys with
    isResetSyncRerendersScheduled := false,
    stores := fun i =>
      if i ∈ sys.resetSyncRerendersSet then resetSyncRerenders (sys.stores i)
      else sys.stores i,
    resetSyncRerendersSet := [] }

/-- Result of a tracking call: returned normally or threw an `Error` whose
message is recorded. -/
inductive TrackResult where
  | ok
  | error (msg : String)
  deriving DecidableEq, Repr

/-- The store's `startTracking` method (`EffectStoreFields.startTracking`):
sets `inRender`, bumps `syncRerendersCount`, schedules the global reset, then
checks the shared depth/cleanup-handle consistency assertions, opens the
underlying recording region when at depth `0`, and increments the shared
depth.  State mutated before a throw persists, and a throw skips the depth
increment. -/
def startTracking (sys : System) (i : Nat) : System × TrackResult :=
  let s := sys.stores i
  let sys1 := scheduleResetSyncRerenders
    (setStore sys i
      { s with inRender := true, syncRerendersCount := s.syncRerendersCount + 1 }) i
  if sys1.useSignalsDepth = 0 then
    match sys1.cleanUpFn with
    | some _ => (sys1, .error "cleanUpFn should be undefined")
    | none =>
      ({ sys1 with
          cleanUpFn := some sys1.nextHandleId,
          nextHandleId := sys1.nextHandleId + 1,
          startRecordingLog := sys1.startRecordingLog ++ [sys1.nextHandleId],
          useSignalsDepth := sys1.useSignalsDepth + 1 }, .ok)
  else
    match sys1.cleanUpFn with
    | none => (sys1, .error "cleanUpFn should be defined with depth")
    | some _ => ({ sys1 with useSignalsDepth := sys1.useSignalsDepth + 1 }, .ok)

/-- The store's `finishTracking` method (`EffectStoreFields.finishTracking`):
throws when the shared depth is already `0` (no state change); otherwise, at
depth `1`, either throws when the cleanup handle is missing (the `finally`
still decrements the depth) or invokes the handle, clears `inRender` and the
handle; at depth `> 1` only decrements the depth. -/
def finishTracking (sys : System) (i : Nat) : System × TrackResult :=
  if sys.useSignalsDepth < 1 then
    (sys, .error "useSignalsDepth should be non-negative")
  else if sys.useSignalsDepth = 1 then
    match sys.cleanUpFn with
    | none =>
      ({ sys with useSignalsDepth := sys.useSignalsDepth - 1 },
        .error "cleanUpFn should be defined with depth")
    | some hId =>
      ({ (setStore sys i { sys.stores i with inRender := false }) with
          cleanUpFn := none,
          cleanupLog := sys.cleanupLog ++ [hId],
          useSignalsDepth := sys.useSignalsDepth - 1 }, .ok)
  else
    ({ sys with useSignalsDepth := sys.useSignalsDepth - 1 }, .ok)

/-- One render bracket of store `i`: `startTracking` then, if it returned,
`finishTracking`. -/
def renderCycle (sys : System) (i : Nat) : System × TrackResult :=
  match startTracking sys i with
  | (sys1, TrackResult.ok) => finishTracking sys1 i
  | r => r

/-- Iterate `renderCycle` for store `i`; the boolean records whether every
call returned without throwing. -/
def renderCycles : Nat → System → Nat → System × Bool
  | 0, sys, _ => (sys, true)
  | n + 1, sys, i =>
    match renderCycle sys i with
    | (sys1, TrackResult.ok) => renderCycles n sys1 i
    | (sys1, TrackResult.error _) => (sys1, false)

/-- A tracking call performed by some store. -/
inductive Op where
  | start (i : Nat)
  | finish (i : Nat)
  deriving DecidableEq, Repr

/-- Run a sequence of tracking calls, stopping at the first throw; the
boolean records whether every call returned without throwing. -/
def runOps : List Op → System → System × Bool
  | [], sys => (sys, true)
  | Op.start i :: rest, sys =>
    match startTracking sys i with
    | (sys1, TrackResult.ok) => runOps rest sys1
    | (sys1, TrackResult.error _) => (sys1, false)
  | Op.finish i :: rest, sys =>
    match finishTracking sys i with
    | (sys1, TrackResult.ok) => runOps rest sys1
    | (sys1, TrackResult.error _) => (sys1, false)

/-- Starting from shared depth `d`, the sequence of tracking calls never
closes the outermost region: every `finish` happens at depth at least `2`. -/
def innerOkB : Nat → List Op → Bool
  | _, [] => true
  | d, Op.start _ :: rest => innerOkB (d + 1) rest
  | d, Op.finish _ :: rest => decide (2 ≤ d) && innerOkB (d - 1) rest

/-- Shared depth after running a sequence of tracking calls from depth `d`
(counting only, no throw modelling). -/
def netDepth : Nat → List Op → Nat
  | d, [] => d
  | d, Op.start _ :: rest => netDepth (d + 1) rest
  | d, Op.finish _ :: rest => netDepth (d - 1) rest

/-- Fold `scheduleResetSyncRerenders` over a list of store identifiers, in
order. -/
def scheduleMany (l : List Nat) (sys : System) : System :=
  l.foldl scheduleResetSyncRerenders sys

/-- The shared-state invariant of §3 of the specification: the pending
cleanup handle is present exactly when the shared tracking depth is
positive. -/
def depthInv (sys : System) : Prop :=
  sys.cleanUpFn.isSome = true ↔ 0 < sys.useSignalsDepth

instance (sys : System) : Decidable (depthInv sys) := by
  unfold depthInv; infer_instance

/-! Arithmetic facts about `toInt32`. -/

theorem toInt32_emod (n : Int) : toInt32 n % 4294967296 = n % 4294967296 := by
  simp only [toInt32]
  split <;> omega

theorem toInt32_modEq (n : Int) : toInt32 n ≡ n [ZMOD (2 ^ 32 : Int)] := by
  show toInt32 n % (2 ^ 32 : Int) = n % (2 ^ 32 : Int)
  norm_num
  exact toInt32_emod n

theorem toInt32_add_one_ne (v : Int) : toInt32 (v + 1) ≠ v := by
  simp only [toInt32]
  split <;> omega

/-! Claim theorems. -/

/-- C2: a tracked-value mutation delivered to `onDepsChange` while `inRender`
is `true` (between `startTracking` and the matching `finishTracking`) leaves
the store state — in particular its `version` — unchanged and does not invoke
the notify callback. -/
theorem mutation_during_render_ignored (cbRaises : Bool) (s : StoreState)
    (h : s.inRender = true) :
    onDepsChange cbRaises s = (s, DepsChangeResult.ignoredInRender) := by
  simp [onDepsChange, h]

/-- Witness for C2 at a concrete mid-render store state. -/
theorem mutation_during_render_ignored_witness :
    onDepsChange false { initStore with inRender := true } =
      ({ initStore with inRender := true }, DepsChangeResult.ignoredInRender) :=
  mutation_during_render_ignored false { initStore with inRender := true } rfl

/-- C10: when `onDepsChange` throws the too-many-sync-rerenders error (guard
checked before the increment), the store state is returned exactly as it was:
no version increment and no notify-callback invocation on that delivery. -/
theorem runaway_error_leaves_state (cbRaises : Bool) (s : StoreState)
    (h1 : s.inRender = false) (h2 : maxSyncRerenders < s.syncRerendersCount) :
    onDepsChange cbRaises s =
      (s, DepsChangeResult.tooManyRerenders (tooManyMsg s.syncRerendersCount)) := by
  simp [onDepsChange, h1, h2]

/-- Witness for C10 at a concrete store state with a tripped counter. -/
theorem runaway_error_leaves_state_witness :
    onDepsChange true { initStore with syncRerendersCount := 26 } =
      ({ initStore with syncRerendersCount := 26 },
        DepsChangeResult.tooManyRerenders (tooManyMsg 26)) :=
  runaway_error_leaves_state true { initStore with syncRerendersCount := 26 }
    rfl (by decide)

/-- C5: whenever `onDepsChange` invokes the notify callback (whether the
callback returns or raises), the store's `version` has already been
incremented; when the callback raises, the error propagates (outcome
`notifyRaised`) and the already-incremented version is what a snapshot read
afterwards observes. -/
theorem notify_preceded_by_increment (cbRaises : Bool) (s : StoreState) :
    ((onDepsChange cbRaises s).2 = DepsChangeResult.notified ∨
      (onDepsChange cbRaises s).2 = DepsChangeResult.notifyRaised →
      (onDepsChange cbRaises s).1.version = toInt32 (s.version + 1)) ∧
    (s.hasNotify = true → s.inRender = false →
      s.syncRerendersCount ≤ maxSyncRerenders →
      onDepsChange true s =
        ({ s with version := toInt32 (s.version + 1) },
          DepsChangeResult.notifyRaised) ∧
      getSnapshot (onDepsChange true s).1 = toInt32 (s.version + 1)) := by
  constructor
  · intro hout
    by_cases h1 : s.inRender
    · simp [onDepsChange, h1] at hout
    · by_cases h2 : s.syncRerendersCount > maxSyncRerenders
      · simp [onDepsChange, h1, h2] at hout
      · by_cases h3 : s.hasNotify
        · by_cases h4 : cbRaises <;> simp [onDepsChange, h1, h2, h3, h4]
        · simp [onDepsChange, h1, h2, h3] at hout
  · intro h3 h1 h2
    constructor
    · simp [onDepsChange, h1, h3, Nat.not_lt.mpr h2]
    · simp [onDepsChange, getSnapshot, h1, h3, Nat.not_lt.mpr h2]

/-- Witness for C5 at a concrete subscribed store whose callback raises. -/
theorem notify_preceded_by_increment_witness :
    (subscribe initStore).hasNotify = true ∧
    onDepsChange true (subscribe initStore) =
      ({ subscribe initStore with
          version := toInt32 ((subscribe initStore).version + 1) },
        DepsChangeResult.notifyRaised) :=
  ⟨rfl,
    ((notify_preceded_by_increment true (subscribe initStore)).2 rfl rfl
      (by decide)).1⟩

/-- C7: subscribing, immediately unsubscribing, then subscribing again with
zero intervening mutations makes `getSnapshot` differ from the value observed
just before unsubscribing; the unsubscribe closure rotates `version` by one
with 32-bit wrapping, clears the notify callback, and disposes the underlying
effect subscription. -/
theorem subscribe_unsubscribe_resubscribe (s : StoreState) :
    getSnapshot (subscribe (unsubscribe (subscribe s))) ≠ getSnapshot (subscribe s) ∧
    (unsubscribe (subscribe s)).version = toInt32 ((subscribe s).version + 1) ∧
    (unsubscribe (subscribe s)).hasNotify = false ∧
    (unsubscribe (subscribe s)).effectDisposed = true := by
  refine ⟨?_, rfl, rfl, rfl⟩
  show toInt32 (s.version + 1) ≠ s.version
  exact toInt32_add_one_ne s.version

/-- One successful `onDepsChange` delivery: subscribed, not rendering,
runaway counter within the ceiling — the version is rotated and the callback
is invoked. -/
theorem onDepsChange_notifies (s : StoreState)
    (h3 : s.hasNotify = true) (h1 : s.inRender = false)
    (h2 : s.syncRerendersCount ≤ maxSyncRerenders) :
    onDepsChange false s =
      ({ s with version := toInt32 (s.version + 1) },
        DepsChangeResult.notified) := by
  simp [onDepsChange, h1, h3, Nat.not_lt.mpr h2]

/-- C1 (amended): for a store with a callback subscribed throughout, not
mid-render, and whose runaway counter has not exceeded the ceiling of 25,
delivering `n` mutations to `onDepsChange` leaves the version congruent to
the old version plus `n` modulo `2^32` and invokes the callback exactly `n`
times. -/
theorem version_counting_amended (n : Nat) (s : StoreState)
    (h3 : s.hasNotify = true) (h1 : s.inRender = false)
    (h2 : s.syncRerendersCount ≤ maxSyncRerenders) :
    ((deliverMutations n s).1.version ≡ s.version + (n : Int)
        [ZMOD (2 ^ 32 : Int)]) ∧
    (deliverMutations n s).2 = n := by
  induction n generalizing s with
  | zero =>
    constructor
    · simp [deliverMutations]
    · rfl
  | succ n ih =>
    have hstep := onDepsChange_notifies s h3 h1 h2
    obtain ⟨ihv, ihc⟩ :=
      ih { s with version := toInt32 (s.version + 1) } h3 h1 h2
    simp only [deliverMutations, hstep]
    constructor
    · have h4 := (toInt32_modEq (s.version + 1)).add_right (n : Int)
      have h6 := ihv.trans h4
      have h7 : s.version + 1 + (n : Int) = s.version + ((n : Nat) + 1 : Nat) := by
        push_cast
        ring
      rw [← h7]
      exact h6
    · simp [ihc, Nat.add_comm]

/-- Witness for the amended C1: three mutations on a freshly subscribed
store. -/
theorem version_counting_amended_witness :
    ((deliverMutations 3 (subscribe initStore)).1.version ≡
        (subscribe initStore).version + ((3 : Nat) : Int)
        [ZMOD (2 ^ 32 : Int)]) ∧
    (deliverMutations 3 (subscribe initStore)).2 = 3 :=
  version_counting_amended 3 (subscribe initStore) rfl rfl (by decide)

/-- Counterexample to C1 as stated: after 26 synchronous render brackets of
a subscribed store (none throwing, all completed, so the store sits strictly
between its `finishTracking` and its next `startTracking` with the callback
subscribed throughout), delivering one mutation leaves the version unchanged
and invokes the callback zero times, contradicting the claimed
`version_before + 1 (mod 2^32)` and one invocation: the runaway guard throws
instead. -/
theorem version_counting_counterexample :
    ((renderCycles 26 (setStore initSystem 0 (subscribe (initSystem.stores 0))) 0).2
        = true) ∧
    (((renderCycles 26 (setStore initSystem 0 (subscribe (initSystem.stores 0))) 0).1.stores 0).hasNotify
        = true) ∧
    (((renderCycles 26 (setStore initSystem 0 (subscribe (initSystem.stores 0))) 0).1.stores 0).inRender
        = false) ∧
    (deliverMutations 1
        ((renderCycles 26 (setStore initSystem 0 (subscribe (initSystem.stores 0))) 0).1.stores 0)
      = (((renderCycles 26 (setStore initSystem 0 (subscribe (initSystem.stores 0))) 0).1.stores 0), 0)) ∧
    ¬ ((deliverMutations 1
          ((renderCycles 26 (setStore initSystem 0 (subscribe (initSystem.stores 0))) 0).1.stores 0)).1.version ≡
        ((renderCycles 26 (setStore initSystem 0 (subscribe (initSystem.stores 0))) 0).1.stores 0).version
          + ((1 : Nat) : Int) [ZMOD (2 ^ 32 : Int)]) := by
  decide

/-! Field-preservation lemmas: `setStore` only changes `stores`, and
`scheduleResetSyncRerenders` only changes the scheduling fields. -/

@[simp]
theorem setStore_useSignalsDepth (sys : System) (i : Nat) (s : StoreState) :
    (setStore sys i s).useSignalsDepth = sys.useSignalsDepth := rfl

@[simp]
theorem setStore_cleanUpFn (sys : System) (i : Nat) (s : StoreState) :
    (setStore sys i s).cleanUpFn = sys.cleanUpFn := rfl

@[simp]
theorem setStore_nextHandleId (sys : System) (i : Nat) (s : StoreState) :
    (setStore sys i s).nextHandleId = sys.nextHandleId := rfl

@[simp]
theorem setStore_startRecordingLog (sys : System) (i : Nat) (s : StoreState) :
    (setStore sys i s).startRecordingLog = sys.startRecordingLog := rfl

@[simp]
theorem setStore_cleanupLog (sys : System) (i : Nat) (s : StoreState) :
    (setStore sys i s).cleanupLog = sys.cleanupLog := rfl

theorem scheduleReset_preserves (sys : System) (i : Nat) :
    (scheduleResetSyncRerenders sys i).stores = sys.stores ∧
    (scheduleResetSyncRerenders sys i).useSignalsDepth = sys.useSignalsDepth ∧
    (scheduleResetSyncRerenders sys i).cleanUpFn = sys.cleanUpFn ∧
    (scheduleResetSyncRerenders sys i).nextHandleId = sys.nextHandleId ∧
    (scheduleResetSyncRerenders sys i).startRecordingLog = sys.startRecordingLog ∧
    (scheduleResetSyncRerenders sys i).cleanupLog = sys.cleanupLog := by
  unfold scheduleResetSyncRerenders
  dsimp only
  split <;> split <;> exact ⟨rfl, rfl, rfl, rfl, rfl, rfl⟩

@[simp]
theorem scheduleReset_stores (sys : System) (i : Nat) :
    (scheduleResetSyncRerenders sys i).stores = sys.stores :=
  (scheduleReset_preserves sys i).1

@[simp]
theorem scheduleReset_useSignalsDepth (sys : System) (i : Nat) :
    (scheduleResetSyncRerenders sys i).useSignalsDepth = sys.useSignalsDepth :=
  (scheduleReset_preserves sys i).2.1

@[simp]
theorem scheduleReset_cleanUpFn (sys : System) (i : Nat) :
    (scheduleResetSyncRerenders sys i).cleanUpFn = sys.cleanUpFn :=
  (scheduleReset_preserves sys i).2.2.1

@[simp]
theorem scheduleReset_nextHandleId (sys : System) (i : Nat) :
    (scheduleResetSyncRerenders sys i).nextHandleId = sys.nextHandleId :=
  (scheduleReset_preserves sys i).2.2.2.1

@[simp]
theorem scheduleReset_startRecordingLog (sys : System) (i : Nat) :
    (scheduleResetSyncRerenders sys i).startRecordingLog = sys.startRecordingLog :=
  (scheduleReset_preserves sys i).2.2.2.2.1

@[simp]
theorem scheduleReset_cleanupLog (sys : System) (i : Nat) :
    (scheduleResetSyncRerenders sys i).cleanupLog = sys.cleanupLog :=
  (scheduleReset_preserves sys i).2.2.2.2.2

/-! Case characterizations of `startTracking` and `finishTracking`. -/

theorem startTracking_outer (sys : System) (i : Nat)
    (hd : sys.useSignalsDepth = 0) (hc : sys.cleanUpFn = none) :
    (startTracking sys i).2 = TrackResult.ok ∧
    (startTracking sys i).1.cleanUpFn = some sys.nextHandleId ∧
    (startTracking sys i).1.useSignalsDepth = 1 ∧
    (startTracking sys i).1.startRecordingLog
        = sys.startRecordingLog ++ [sys.nextHandleId] ∧
    (startTracking sys i).1.cleanupLog = sys.cleanupLog ∧
    (startTracking sys i).1.nextHandleId = sys.nextHandleId + 1 := by
  simp [startTracking, hd, hc]

theorem startTracking_inner (sys : System) (i : Nat) (h : Nat)
    (hd : sys.useSignalsDepth ≠ 0) (hc : sys.cleanUpFn = some h) :
    (startTracking sys i).2 = TrackResult.ok ∧
    (startTracking sys i).1.cleanUpFn = some h ∧
    (startTracking sys i).1.useSignalsDepth = sys.useSignalsDepth + 1 ∧
    (startTracking sys i).1.startRecordingLog = sys.startRecordingLog ∧
    (startTracking sys i).1.cleanupLog = sys.cleanupLog ∧
    (startTracking sys i).1.nextHandleId = sys.nextHandleId := by
  simp [startTracking, hd, hc]

theorem startTracking_err_handle_present (sys : System) (i : Nat) (h : Nat)
    (hd : sys.useSignalsDepth = 0) (hc : sys.cleanUpFn = some h) :
    (startTracking sys i).2 = TrackResult.error "cleanUpFn should be undefined" := by
  simp [startTracking, hd, hc]

theorem startTracking_err_handle_missing (sys : System) (i : Nat)
    (hd : sys.useSignalsDepth ≠ 0) (hc : sys.cleanUpFn = none) :
    (startTracking sys i).2
      = TrackResult.error "cleanUpFn should be defined with depth" := by
  simp [startTracking, hd, hc]

theorem finishTracking_err_depth_zero (sys : System) (i : Nat)
    (hd : sys.useSignalsDepth = 0) :
    finishTracking sys i
      = (sys, TrackResult.error "useSignalsDepth should be non-negative") := by
  simp [finishTracking, hd]

theorem finishTracking_outer (sys : System) (i : Nat) (h : Nat)
    (hd : sys.useSignalsDepth = 1) (hc : sys.cleanUpFn = some h) :
    (finishTracking sys i).2 = TrackResult.ok ∧
    (finishTracking sys i).1.cleanUpFn = none ∧
    (finishTracking sys i).1.useSignalsDepth = 0 ∧
    (finishTracking sys i).1.cleanupLog = sys.cleanupLog ++ [h] ∧
    (finishTracking sys i).1.startRecordingLog = sys.startRecordingLog ∧
    (finishTracking sys i).1.nextHandleId = sys.nextHandleId ∧
    ((finishTracking sys i).1.stores i).inRender = false := by
  refine ⟨?_, ?_, ?_, ?_, ?_, ?_, ?_⟩ <;>
    simp [finishTracking, hd, hc, setStore]

theorem finishTracking_nested (sys : System) (i : Nat)
    (hd : 2 ≤ sys.useSignalsDepth) :
    finishTracking sys i
      = ({ sys with useSignalsDepth := sys.useSignalsDepth - 1 },
          TrackResult.ok) := by
  have h1 : ¬ sys.useSignalsDepth < 1 := by omega
  have h2 : sys.useSignalsDepth ≠ 1 := by omega
  simp [finishTracking, h1, h2]

/-- C6: `finishTracking` throws a descriptive error (and changes nothing)
when the shared depth is already `0`; `startTracking` throws a descriptive
error when the cleanup handle is present at depth `0` or absent at positive
depth.  Each assertion surfaces synchronously as the call's outcome — never
silently ignored. -/
theorem tracking_assertions (sys : System) (i : Nat) :
    (sys.useSignalsDepth = 0 →
      finishTracking sys i
        = (sys, TrackResult.error "useSignalsDepth should be non-negative")) ∧
    (sys.useSignalsDepth = 0 → sys.cleanUpFn.isSome = true →
      (startTracking sys i).2
        = TrackResult.error "cleanUpFn should be undefined") ∧
    (0 < sys.useSignalsDepth → sys.cleanUpFn = none →
      (startTracking sys i).2
        = TrackResult.error "cleanUpFn should be defined with depth") := by
  refine ⟨?_, ?_, ?_⟩
  · intro hd
    exact finishTracking_err_depth_zero sys i hd
  · intro hd hc
    obtain ⟨h, hh⟩ := Option.isSome_iff_exists.mp hc
    exact startTracking_err_handle_present sys i h hd hh
  · intro hd hc
    exact startTracking_err_handle_missing sys i (by omega) hc

/-- Witness for C6: the three assertions observed at concrete module
states. -/
theorem tracking_assertions_witness :
    finishTracking initSystem 0
      = (initSystem, TrackResult.error "useSignalsDepth should be non-negative") ∧
    (startTracking { initSystem with cleanUpFn := some 7 } 0).2
      = TrackResult.error "cleanUpFn should be undefined" ∧
    (startTracking { initSystem with useSignalsDepth := 2 } 0).2
      = TrackResult.error "cleanUpFn should be defined with depth" :=
  ⟨(tracking_assertions initSystem 0).1 rfl,
    (tracking_assertions { initSystem with cleanUpFn := some 7 } 0).2.1 rfl rfl,
    (tracking_assertions { initSystem with useSignalsDepth := 2 } 0).2.2
      (by decide) rfl⟩

/-- C9: the shared invariant "`cleanUpFn` is present iff `useSignalsDepth`
is positive" holds at module load and is preserved by every `startTracking`
and every `finishTracking` call, by any store, that returns without
throwing. -/
theorem pendingCleanup_depth_invariant :
    depthInv initSystem ∧
    (∀ (sys sys' : System) (i : Nat), depthInv sys →
      startTracking sys i = (sys', TrackResult.ok) → depthInv sys') ∧
    (∀ (sys sys' : System) (i : Nat), depthInv sys →
      finishTracking sys i = (sys', TrackResult.ok) → depthInv sys') := by
  refine ⟨by decide, ?_, ?_⟩
  · intro sys sys' i hinv hrun
    by_cases hd : sys.useSignalsDepth = 0
    · have hc : sys.cleanUpFn = none := by
        cases hcc : sys.cleanUpFn with
        | none => rfl
        | some h =>
          have := hinv.mp (by simp [hcc])
          omega
      obtain ⟨hok, hc', hd', -⟩ := startTracking_outer sys i hd hc
      have hsys' : sys' = (startTracking sys i).1 := by
        rw [hrun]
      rw [hsys']
      unfold depthInv
      rw [hc', hd']
      simp
    · cases hcc : sys.cleanUpFn with
      | none =>
        have herr := startTracking_err_handle_missing sys i hd hcc
        rw [hrun] at herr
        simp at herr
      | some h =>
        obtain ⟨hok, hc', hd', -⟩ := startTracking_inner sys i h hd hcc
        have hsys' : sys' = (startTracking sys i).1 := by
          rw [hrun]
        rw [hsys']
        unfold depthInv
        rw [hc', hd']
        simp
  · intro sys sys' i hinv hrun
    by_cases hd0 : sys.useSignalsDepth = 0
    · have herr := finishTracking_err_depth_zero sys i hd0
      rw [hrun] at herr
      simp at herr
    · by_cases hd1 : sys.useSignalsDepth = 1
      · cases hcc : sys.cleanUpFn with
        | none =>
          have := hinv.mpr (by omega)
          simp [hcc] at this
        | some h =>
          obtain ⟨hok, hc', hd', -⟩ := finishTracking_outer sys i h hd1 hcc
          have hsys' : sys' = (finishTracking sys i).1 := by
            rw [hrun]
          rw [hsys']
          unfold depthInv
          rw [hc', hd']
          simp
      · have hd2 : 2 ≤ sys.useSignalsDepth := by omega
        have heq := finishTracking_nested sys i hd2
        rw [heq] at hrun
        have hsys' : sys' = { sys with useSignalsDepth := sys.useSignalsDepth - 1 } := by
          exact (Prod.mk.injEq _ _ _ _ ▸ hrun.symm).1
        rw [hsys']
        unfold depthInv
        have hiff := hinv
        unfold depthInv at hiff
        constructor
        · intro hsome
          have := hiff.mp hsome
          simp
          omega
        · intro hpos
          exact hiff.mpr (by omega)

/-- Witness for C9: the invariant after one successful `startTracking` on a
fresh module state. -/
theorem pendingCleanup_depth_invariant_witness :
    depthInv (startTracking initSystem 0).1 :=
  pendingCleanup_depth_invariant.2.1 initSystem (startTracking initSystem 0).1 0
    pendingCleanup_depth_invariant.1 rfl

/-- Counterexample to C3 as stated: 26 synchronous render brackets of the
same subscribed store within one microtask tick (no reset runs) all return
without throwing — so the 26th render begins with no throw even though the
counter has exceeded the ceiling after it — and even a 27th `startTracking`
with `syncRerenderCount` already `26 > 25` still returns `ok`:
`startTracking` never fails from the runaway ceiling. -/
theorem runaway_guard_counterexample :
    ((renderCycles 26 (setStore initSystem 0 (subscribe (initSystem.stores 0))) 0).2
        = true) ∧
    (((renderCycles 26 (setStore initSystem 0 (subscribe (initSystem.stores 0))) 0).1.stores 0).syncRerendersCount
        = 26) ∧
    maxSyncRerenders < 26 ∧
    ((startTracking
        (renderCycles 26 (setStore initSystem 0 (subscribe (initSystem.stores 0))) 0).1
        0).2 = TrackResult.ok) := by
  decide

/-- C3 (amended): the runaway guard lives in the dependency-change handler,
not in `startTracking`: once `syncRerendersCount` exceeds the ceiling of 25,
the next mutation delivered outside render makes `onDepsChange` throw the
too-many-sync-rerenders diagnostic, leaving the store unchanged (so no
further render is triggered by it); once the scheduled microtask reset has
zeroed the counter, a delivery no longer throws that error. -/
theorem runaway_guard_amended (cbRaises : Bool) (s : StoreState)
    (h1 : s.inRender = false) :
    (maxSyncRerenders < s.syncRerendersCount →
      onDepsChange cbRaises s
        = (s, DepsChangeResult.tooManyRerenders (tooManyMsg s.syncRerendersCount))) ∧
    (∀ msg, (onDepsChange cbRaises (resetSyncRerenders s)).2
        ≠ DepsChangeResult.tooManyRerenders msg) := by
  constructor
  · intro h2
    simp [onDepsChange, h1, h2]
  · intro msg
    have h5 : ¬ ((resetSyncRerenders s).syncRerendersCount > maxSyncRerenders) := by
      simp [resetSyncRerenders, maxSyncRerenders]
    by_cases h3 : s.hasNotify <;> by_cases h4 : cbRaises <;>
      simp [onDepsChange, resetSyncRerenders, h1, h3, h4, maxSyncRerenders]

/-- Witness for the amended C3 at a concrete tripped store state. -/
theorem runaway_guard_amended_witness :
    onDepsChange false { initStore with syncRerendersCount := 27 }
      = ({ initStore with syncRerendersCount := 27 },
          DepsChangeResult.tooManyRerenders (tooManyMsg 27)) ∧
    (onDepsChange false (resetSyncRerenders { initStore with syncRerendersCount := 27 })).2
      ≠ DepsChangeResult.tooManyRerenders (tooManyMsg 0) :=
  ⟨(runaway_guard_amended false { initStore with syncRerendersCount := 27 } rfl).1
      (by decide),
    (runaway_guard_amended false { initStore with syncRerendersCount := 27 } rfl).2
      (tooManyMsg 0)⟩

/-! Sequencing lemmas for `runOps`. -/

theorem runOps_cons_start (i : Nat) (rest : List Op) (sys sys1 : System)
    (hst : startTracking sys i = (sys1, TrackResult.ok)) :
    runOps (Op.start i :: rest) sys = runOps rest sys1 := by
  simp only [runOps, hst]

theorem runOps_cons_finish (i : Nat) (rest : List Op) (sys sys1 : System)
    (hst : finishTracking sys i = (sys1, TrackResult.ok)) :
    runOps (Op.finish i :: rest) sys = runOps rest sys1 := by
  simp only [runOps, hst]

theorem runOps_append (l1 l2 : List Op) (sys : System)
    (h : (runOps l1 sys).2 = true) :
    runOps (l1 ++ l2) sys = runOps l2 (runOps l1 sys).1 := by
  induction l1 generalizing sys with
  | nil => simp [runOps]
  | cons op rest ih =>
    cases op with
    | start i =>
      rcases hst : startTracking sys i with ⟨sys1, r⟩
      cases r with
      | ok =>
        simp only [List.cons_append, runOps, hst] at h ⊢
        exact ih sys1 h
      | error m =>
        simp only [runOps, hst] at h
        simp at h
    | finish i =>
      rcases hst : finishTracking sys i with ⟨sys1, r⟩
      cases r with
      | ok =>
        simp only [List.cons_append, runOps, hst] at h ⊢
        exact ih sys1 h
      | error m =>
        simp only [runOps, hst] at h
        simp at h

theorem runOps_inner (ops : List Op) :
    ∀ (sys : System) (h : Nat), sys.cleanUpFn = some h →
      sys.useSignalsDepth ≠ 0 → innerOkB sys.useSignalsDepth ops = true →
      (runOps ops sys).2 = true ∧
      (runOps ops sys).1.cleanUpFn = some h ∧
      (runOps ops sys).1.useSignalsDepth = netDepth sys.useSignalsDepth ops ∧
      (runOps ops sys).1.startRecordingLog = sys.startRecordingLog ∧
      (runOps ops sys).1.cleanupLog = sys.cleanupLog ∧
      (runOps ops sys).1.nextHandleId = sys.nextHandleId := by
  induction ops with
  | nil =>
    intro sys h hc hd hin
    exact ⟨rfl, hc, rfl, rfl, rfl, rfl⟩
  | cons op rest ih =>
    intro sys h hc hd hin
    cases op with
    | start i =>
      obtain ⟨hok, hc', hd', hsl, hcl, hnh⟩ := startTracking_inner sys i h hd hc
      have hpair : startTracking sys i = ((startTracking sys i).1, TrackResult.ok) := by
        rw [← hok]
      have hrun := runOps_cons_start i rest sys (startTracking sys i).1 hpair
      have hin0 : innerOkB (sys.useSignalsDepth + 1) rest = true := by
        simpa only [innerOkB] using hin
      have hin' : innerOkB (startTracking sys i).1.useSignalsDepth rest = true := by
        rw [hd']
        exact hin0
      obtain ⟨q1, q2, q3, q4, q5, q6⟩ :=
        ih (startTracking sys i).1 h hc' (by omega) hin'
      rw [hrun]
      refine ⟨q1, q2, ?_, q4.trans hsl, q5.trans hcl, q6.trans hnh⟩
      rw [q3, hd']
      rfl
    | finish i =>
      have hin2 := hin
      simp only [innerOkB, Bool.and_eq_true, decide_eq_true_eq] at hin2
      have hd2 : 2 ≤ sys.useSignalsDepth := hin2.1
      have hinrest : innerOkB (sys.useSignalsDepth - 1) rest = true := hin2.2
      have heq := finishTracking_nested sys i hd2
      have hrun := runOps_cons_finish i rest sys
        { sys with useSignalsDepth := sys.useSignalsDepth - 1 } heq
      obtain ⟨q1, q2, q3, q4, q5, q6⟩ :=
        ih { sys with useSignalsDepth := sys.useSignalsDepth - 1 } h hc
          (by simp; omega) hinrest
      rw [hrun]
      exact ⟨q1, q2, q3, q4, q5, q6⟩

/-- C4: from a quiescent module state (depth `0`, no pending handle), an
outermost `startTracking` by unit `a`, any properly nested sequence of
start/finish calls by other units that never closes the outermost region and
returns to depth `1`, followed by unit `a`'s `finishTracking`, opens exactly
one underlying dependency-recording region and closes exactly one — and the
handle invoked at the outermost finish is the very handle the outermost
`startTracking` received from the scope's `startRecording`. -/
theorem nested_tracking_single_region (sys : System) (a : Nat) (ops : List Op)
    (hd : sys.useSignalsDepth = 0) (hc : sys.cleanUpFn = none)
    (hops : innerOkB 1 ops = true) (hnet : netDepth 1 ops = 1) :
    ((runOps (Op.start a :: (ops ++ [Op.finish a])) sys).2 = true) ∧
    ((runOps (Op.start a :: (ops ++ [Op.finish a])) sys).1.startRecordingLog
      = sys.startRecordingLog ++ [sys.nextHandleId]) ∧
    ((runOps (Op.start a :: (ops ++ [Op.finish a])) sys).1.cleanupLog
      = sys.cleanupLog ++ [sys.nextHandleId]) := by
  obtain ⟨hok, hc1, hd1, hsl1, hcl1, hnh1⟩ := startTracking_outer sys a hd hc
  have hpair : startTracking sys a = ((startTracking sys a).1, TrackResult.ok) := by
    rw [← hok]
  have hrun := runOps_cons_start a (ops ++ [Op.finish a]) sys
    (startTracking sys a).1 hpair
  obtain ⟨q1, q2, q3, q4, q5, q6⟩ :=
    runOps_inner ops (startTracking sys a).1 sys.nextHandleId hc1
      (by omega) (by rw [hd1]; exact hops)
  have hq3 : (runOps ops (startTracking sys a).1).1.useSignalsDepth = 1 := by
    rw [q3, hd1, hnet]
  have happ : runOps (ops ++ [Op.finish a]) (startTracking sys a).1
      = runOps [Op.finish a] (runOps ops (startTracking sys a).1).1 :=
    runOps_append ops [Op.finish a] (startTracking sys a).1 q1
  obtain ⟨f1, f2, f3, f4, f5, f6, f7⟩ :=
    finishTracking_outer (runOps ops (startTracking sys a).1).1 a
      sys.nextHandleId hq3 q2
  have hfpair : finishTracking (runOps ops (startTracking sys a).1).1 a
      = ((finishTracking (runOps ops (startTracking sys a).1).1 a).1,
          TrackResult.ok) := by
    rw [← f1]
  have hlast : runOps [Op.finish a] (runOps ops (startTracking sys a).1).1
      = ((finishTracking (runOps ops (startTracking sys a).1).1 a).1, true) :=
    runOps_cons_finish a [] (runOps ops (startTracking sys a).1).1
      (finishTracking (runOps ops (startTracking sys a).1).1 a).1 hfpair
  rw [hrun, happ, hlast]
  refine ⟨rfl, ?_, ?_⟩
  · exact f5.trans (q4.trans hsl1)
  · rw [f4, q5, hcl1]

/-- Witness for C4: unit 0 opens, unit 1 nests one bracket, unit 0 closes,
starting from the pristine module state. -/
theorem nested_tracking_single_region_witness :
    ((runOps (Op.start 0 :: ([Op.start 1, Op.finish 1] ++ [Op.finish 0]))
        initSystem).2 = true) ∧
    ((runOps (Op.start 0 :: ([Op.start 1, Op.finish 1] ++ [Op.finish 0]))
        initSystem).1.startRecordingLog
      = initSystem.startRecordingLog ++ [initSystem.nextHandleId]) ∧
    ((runOps (Op.start 0 :: ([Op.start 1, Op.finish 1] ++ [Op.finish 0]))
        initSystem).1.cleanupLog
      = initSystem.cleanupLog ++ [initSystem.nextHandleId]) :=
  nested_tracking_single_region initSystem 0 [Op.start 1, Op.finish 1]
    rfl rfl (by decide) (by decide)

/-! Lemmas about the global runaway-reset scheduler. -/

theorem scheduleReset_flag_true (sys : System) (i : Nat)
    (h : sys.isResetSyncRerendersScheduled = true) :
    (scheduleResetSyncRerenders sys i).queuedMicrotasks = sys.queuedMicrotasks ∧
    (scheduleResetSyncRerenders sys i).isResetSyncRerendersScheduled = true := by
  by_cases hm : i ∈ sys.resetSyncRerendersSet <;>
    simp [scheduleResetSyncRerenders, h, hm]

theorem scheduleReset_flag_false (sys : System) (i : Nat)
    (h : sys.isResetSyncRerendersScheduled = false) :
    (scheduleResetSyncRerenders sys i).queuedMicrotasks
        = sys.queuedMicrotasks + 1 ∧
    (scheduleResetSyncRerenders sys i).isResetSyncRerendersScheduled = true := by
  by_cases hm : i ∈ sys.resetSyncRerendersSet <;>
    simp [scheduleResetSyncRerenders, h, hm]

theorem scheduleMany_flag_true (l : List Nat) :
    ∀ sys : System, sys.isResetSyncRerendersScheduled = true →
      (scheduleMany l sys).queuedMicrotasks = sys.queuedMicrotasks ∧
      (scheduleMany l sys).isResetSyncRerendersScheduled = true := by
  induction l with
  | nil =>
    intro sys h
    exact ⟨rfl, h⟩
  | cons a rest ih =>
    intro sys h
    have h1 := scheduleReset_flag_true sys a h
    have h2 := ih (scheduleResetSyncRerenders sys a) h1.2
    exact ⟨h2.1.trans h1.1, h2.2⟩

/-- C8: any nonempty batch of `scheduleResetSyncRerenders` calls made while
no reset is scheduled queues exactly one deferred microtask callback; when
that callback (`resetSyncRerenders`, here `runResetSyncRerenders`) runs, it
zeroes the `syncRerendersCount` of every store registered in the set, clears
the registry, and clears the scheduled flag. -/
theorem schedule_reset_coalesces (l : List Nat) (sys t : System) (i : Nat)
    (hflag : sys.isResetSyncRerendersScheduled = false) (hl : l ≠ [])
    (hmem : i ∈ t.resetSyncRerendersSet) :
    (scheduleMany l sys).queuedMicrotasks = sys.queuedMicrotasks + 1 ∧
    (scheduleMany l sys).isResetSyncRerendersScheduled = true ∧
    ((runResetSyncRerenders t).stores i).syncRerendersCount = 0 ∧
    (runResetSyncRerenders t).resetSyncRerendersSet = [] ∧
    (runResetSyncRerenders t).isResetSyncRerendersScheduled = false := by
  cases l with
  | nil => exact absurd rfl hl
  | cons a rest =>
    have h1 := scheduleReset_flag_false sys a hflag
    have h2 := scheduleMany_flag_true rest (scheduleResetSyncRerenders sys a) h1.2
    refine ⟨h2.1.trans h1.1, h2.2, ?_, rfl, rfl⟩
    simp [runResetSyncRerenders, resetSyncRerenders, hmem]

/-- Witness for C8: a batch of three registrations (one duplicated) from the
pristine state, and a reset over a registry containing stores 0 and 1. -/
theorem schedule_reset_coalesces_witness :
    (scheduleMany [0, 1, 0] initSystem).queuedMicrotasks
        = initSystem.queuedMicrotasks + 1 ∧
    (scheduleMany [0, 1, 0] initSystem).isResetSyncRerendersScheduled = true ∧
    ((runResetSyncRerenders
        { initSystem with resetSyncRerendersSet := [0, 1],
                          isResetSyncRerendersScheduled := true }).stores 1).syncRerendersCount
      = 0 ∧
    (runResetSyncRerenders
        { initSystem with resetSyncRerendersSet := [0, 1],
                          isResetSyncRerendersScheduled := true }).resetSyncRerendersSet
      = [] ∧
    (runResetSyncRerenders
        { initSystem with resetSyncRerendersSet := [0, 1],
                          isResetSyncRerendersScheduled := true }).isResetSyncRerendersScheduled
      = false :=
  schedule_reset_coalesces [0, 1, 0] initSystem
    { initSystem with resetSyncRerendersSet := [0, 1],
                      isResetSyncRerendersScheduled := true } 1
    rfl (by decide) (by decide)

end SignalsTracking
